import Mathlib

/-!
Shallow embedding of the GourmetVision lazy image-generation pipeline.

The embedded code is the `App` component (its state and the handlers
`processImage`, `generateSingleDish`, `handleRetryGenerate`), the
`DishCard` component (its `IntersectionObserver` effect and its render
branches), and the image selection of the `api/generate-image.ts` proxy.
React state updates passed to `setDishes` are modelled as functions on the
dish list; the render-closure value of `dishes` captured by a handler is an
explicit `snapshot` parameter; `Date.now()` is the parameter `ts`; the
settled outcome of a network call is a parameter of the corresponding
handler model.
-/

/-- JavaScript truthiness of a `string | undefined` value: `undefined` and the
empty string are falsy. The guards in the app (`dish.generatedImageUrl`,
`!dish.generatedImageUrl`) test truthiness of this kind of value. -/
def truthy : Option String → Bool
  | none => false
  | some s => !(s == "")

/-- Runtime view of one dish object (interface `Dish` in `types.ts`, as built
by `processImage` in `App.tsx`). Text fields are `Option String` because the
client performs no shape validation: a JSON record missing a field reaches the
dish object as `undefined`, modelled as `none`. The two flags are booleans
(`undefined` is falsy and the code only ever stores real booleans in them). -/
structure Dish where
  id : String
  originalName : Option String
  englishTranslation : Option String
  description : Option String
  price : Option String
  category : Option String
  generatedImageUrl : Option String
  isLoadingImage : Bool
  hasAttemptedGeneration : Bool
deriving DecidableEq

/-- One raw dish record of the analysis payload (`MenuAnalysisResponse` in
`types.ts`), viewed as arbitrary JSON: every field may be absent, since the
client installs whatever the proxy returned without checking it. -/
structure RawDishRecord where
  originalName : Option String
  englishTranslation : Option String
  ingredientsOrDescription : Option String
  price : Option String
  category : Option String
deriving DecidableEq

/-- A parsed analysis payload. `dishes` is `none` when the JSON body has no
usable `dishes` array; accessing `.map` on it then throws inside the `try`
block of `processImage`. -/
structure MenuPayload where
  dishes : Option (List RawDishRecord)
deriving DecidableEq

/-- One outbound `generateDishPhoto` call: the dish id its continuations will
complete against, and the name/description taken from the render snapshot. -/
structure GenCall where
  dishId : String
  dishName : Option String
  description : Option String
deriving DecidableEq

/-- The slice of `App` component state that the pipeline reads and writes:
the dish collection, the user-visible error message, and the analyzing flag. -/
structure AppState where
  dishes : List Dish
  error : Option String
  isAnalyzing : Bool
deriving DecidableEq

/-- State of the first render of `App`: no dishes, no error, not analyzing. -/
def initialState : AppState :=
  { dishes := [], error := none, isAnalyzing := false }

/-- The message `processImage` sets when the analysis flow throws. -/
def analyzeFailedMsg : String :=
  "Failed to analyze the menu. Please try a clearer image."

/-- The dish object `processImage` builds for record `r` at position `index`
of the response (`Date.now()` modelled as `ts`): fields are copied through,
`ingredientsOrDescription` becomes `description`, no image, both flags false. -/
def mkDish (index : Nat) (r : RawDishRecord) (ts : Nat) : Dish :=
  { id := "dish-" ++ toString index ++ "-" ++ toString ts
    originalName := r.originalName
    englishTranslation := r.englishTranslation
    description := r.ingredientsOrDescription
    price := r.price
    category := r.category
    generatedImageUrl := none
    isLoadingImage := false
    hasAttemptedGeneration := false }

/-- `processImage` in `App.tsx`, after the `parseMenuImage` call settles.
`result` is the settled outcome of the call: `Except.error` for a rejected
promise (network failure or non-ok proxy status). On a fulfilled payload
whose `dishes` field is unusable, `result.dishes.map` throws and the `catch`
runs. Otherwise the mapped dish list replaces the collection. The `finally`
clears `isAnalyzing` on every path, and `setError(null)` ran first, so the
error is `none` unless the `catch` set the failure message. -/
def processImage (st : AppState) (result : Except Unit MenuPayload) (ts : Nat) :
    AppState :=
  match result with
  | Except.error _ =>
    { st with error := some analyzeFailedMsg, isAnalyzing := false }
  | Except.ok payload =>
    match payload.dishes with
    | none => { st with error := some analyzeFailedMsg, isAnalyzing := false }
    | some rs =>
      { dishes := rs.enum.map (fun p => mkDish p.1 p.2 ts)
        error := none
        isAnalyzing := false }

/-- The functional update `generateSingleDish` passes to `setDishes`: it marks
the dish as loading unless the dish is absent, already loading, or already has
a (truthy) generated image, in which case it returns `prevDishes` unchanged. -/
def gssUpdater (dishId : String) (prev : List Dish) : List Dish :=
  match prev.find? (fun d => d.id == dishId) with
  | none => prev
  | some dish =>
    if dish.isLoadingImage || truthy dish.generatedImageUrl then prev
    else
      prev.map (fun d =>
        if d.id == dishId then { d with isLoadingImage := true } else d)

/-- `generateSingleDish` in `App.tsx` up to its `await`: it queues the store
update above, then looks the dish up in the render-closure value of `dishes`
(the `snapshot`) and, whenever that lookup succeeds, issues one
`generateDishPhoto` call with the snapshot dish's name and description. Note
the outbound call is not conditioned on the updater's guard. -/
def generateSingleDish (store snapshot : List Dish) (dishId : String) :
    List Dish × List GenCall :=
  let store1 := gssUpdater dishId store
  match snapshot.find? (fun d => d.id == dishId) with
  | none => (store1, [])
  | some dtp =>
    (store1,
      [{ dishId := dishId
         dishName := dtp.englishTranslation
         description := dtp.description }])

/-- Continuation of `generateSingleDish` when `generateDishPhoto` fulfils with
`url`: only the dish with the captured id gets the image and cleared flags. -/
def completeSuccess (store : List Dish) (dishId : String) (url : String) :
    List Dish :=
  store.map (fun d =>
    if d.id == dishId then
      { d with generatedImageUrl := some url
               isLoadingImage := false
               hasAttemptedGeneration := true }
    else d)

/-- Continuation of `generateSingleDish` when `generateDishPhoto` rejects (the
`catch` block): only the dish with the captured id stops loading and is marked
as attempted; no other dish is touched and nothing is thrown further. -/
def completeFailure (store : List Dish) (dishId : String) : List Dish :=
  store.map (fun d =>
    if d.id == dishId then
      { d with isLoadingImage := false, hasAttemptedGeneration := true }
    else d)

/-- `handleRetryGenerate` in `App.tsx`: it queues an update clearing
`hasAttemptedGeneration` for the dish and then calls `generateSingleDish`.
Both queued updates act on the current store in order, while the lookup for
the outbound call uses the same render snapshot; there is no check of the
dish's current state in this handler. -/
def handleRetryGenerate (store snapshot : List Dish) (dishId : String) :
    List Dish × List GenCall :=
  let store1 := store.map (fun d =>
    if d.id == dishId then { d with hasAttemptedGeneration := false } else d)
  generateSingleDish store1 snapshot dishId

/-- The four lifecycle states of the specification. -/
inductive GenState
  | NotRequested
  | Pending
  | Succeeded
  | Failed
deriving DecidableEq

/-- The per-dish lifecycle state, derived from the stored flags exactly the
way the render of `DishCard.tsx` decides between the image, the skeleton
loader, the waiting placeholder and the failed placeholder. -/
def generationState (d : Dish) : GenState :=
  if truthy d.generatedImageUrl then GenState.Succeeded
  else if d.isLoadingImage then GenState.Pending
  else if d.hasAttemptedGeneration then GenState.Failed
  else GenState.NotRequested

/-- Condition under which `DishCard.tsx` renders the retry button. -/
def retryButtonShown (d : Dish) : Bool :=
  !truthy d.generatedImageUrl && !d.isLoadingImage && d.hasAttemptedGeneration

/-- Whether a card currently holds a live `IntersectionObserver`. -/
inductive ObsState
  | watching
  | disconnected
deriving DecidableEq

/-- The effect of `DishCard.tsx`: it creates an observer only when the dish
has no generated image, is not loading, and has not attempted generation;
in every other case it returns early without observing. -/
def runEffect (d : Dish) : ObsState :=
  if truthy d.generatedImageUrl || d.isLoadingImage || d.hasAttemptedGeneration
  then ObsState.disconnected
  else ObsState.watching

/-- The observer callback of `DishCard.tsx`: a watching observer that sees an
intersecting entry calls `onGenerate` once and disconnects itself; an already
disconnected observer never fires. The boolean result records whether the
notification fired. -/
def observerFire : ObsState → Bool → ObsState × Bool
  | ObsState.watching, true => (ObsState.disconnected, true)
  | ObsState.watching, false => (ObsState.watching, false)
  | ObsState.disconnected, _ => (ObsState.disconnected, false)

/-- Events a card instance sees: an effect re-run with the current dish props,
or an intersection callback. -/
inductive CardEvent
  | update (d : Dish)
  | intersect (isIntersecting : Bool)

/-- Number of `onGenerate` notifications a card instance fires over a sequence
of effect re-runs and intersection callbacks, starting from observer state
`s`. -/
def cardFires : ObsState → List CardEvent → Nat
  | _, [] => 0
  | _, CardEvent.update d :: rest => cardFires (runEffect d) rest
  | s, CardEvent.intersect b :: rest =>
    (if (observerFire s b).2 then 1 else 0) + cardFires (observerFire s b).1 rest

/-- Image selection of `api/generate-image.ts`: a truthy `url` field is
returned as-is, else a `b64_json` payload is wrapped as a data URL, else the
handler answers with a 500 error and no image reaches the client. Every `some`
result of this function is therefore a non-empty string. -/
def serverImageResponse (url b64 : Option String) : Option String :=
  if truthy url then url
  else
    match b64 with
    | some b => some ("data:image/png;base64," ++ b)
    | none => none

/-- States of the `App` component reachable from the first render through the
pipeline operations: a scan settling (`processImage`), a visibility
notification (`generateSingleDish` via `DishCard`), an explicit retry
(`handleRetryGenerate`), and the two completion continuations. A success
completion carries a url the image endpoint can actually produce. -/
inductive Reachable : AppState → Prop
  | init : Reachable initialState
  | scan (st : AppState) (res : Except Unit MenuPayload) (ts : Nat) :
      Reachable st → Reachable (processImage st res ts)
  | visible (st : AppState) (dishId : String) :
      Reachable st →
      Reachable { st with dishes := (generateSingleDish st.dishes st.dishes dishId).1 }
  | retry (st : AppState) (dishId : String) :
      Reachable st →
      Reachable { st with dishes := (handleRetryGenerate st.dishes st.dishes dishId).1 }
  | success (st : AppState) (dishId : String) (url : String)
      (u b64 : Option String) :
      serverImageResponse u b64 = some url →
      Reachable st →
      Reachable { st with dishes := completeSuccess st.dishes dishId url }
  | failure (st : AppState) (dishId : String) :
      Reachable st →
      Reachable { st with dishes := completeFailure st.dishes dishId }

/-- A well-formed raw record used by the demonstration traces. -/
def demoRecord : RawDishRecord :=
  { originalName := some "A"
    englishTranslation := some "B"
    ingredientsOrDescription := some "C"
    price := none
    category := none }

/-- App state after a scan that returned `[demoRecord]` at time 0. -/
def demoScan : AppState :=
  processImage initialState (Except.ok { dishes := some [demoRecord] }) 0

/-- App state after the single demo dish scrolled into view. -/
def demoVisible : AppState :=
  { demoScan with
    dishes := (generateSingleDish demoScan.dishes demoScan.dishes "dish-0-0").1 }

/-- App state after the demo dish's generation call fulfilled with `"R"`. -/
def demoSuccess : AppState :=
  { demoVisible with
    dishes := completeSuccess demoVisible.dishes "dish-0-0" "R" }

/-- The demo dish as it stands in `demoSuccess`. -/
def demoDish : Dish :=
  { id := "dish-0-0"
    originalName := some "A"
    englishTranslation := some "B"
    description := some "C"
    price := none
    category := none
    generatedImageUrl := some "R"
    isLoadingImage := false
    hasAttemptedGeneration := true }

/-- A dish in the `NotRequested` state, id `"n"`. -/
def dishNR : Dish :=
  { id := "n"
    originalName := some "N orig"
    englishTranslation := some "N name"
    description := some "N desc"
    price := none
    category := none
    generatedImageUrl := none
    isLoadingImage := false
    hasAttemptedGeneration := false }

/-- A dish in the `Failed` state, id `"f"`. -/
def dishFailed : Dish :=
  { id := "f"
    originalName := some "F orig"
    englishTranslation := some "F name"
    description := some "F desc"
    price := none
    category := none
    generatedImageUrl := none
    isLoadingImage := false
    hasAttemptedGeneration := true }

/-- A dish in the `Pending` state, id `"p"`. -/
def dishPending : Dish :=
  { id := "p"
    originalName := some "P orig"
    englishTranslation := some "P name"
    description := some "P desc"
    price := none
    category := none
    generatedImageUrl := none
    isLoadingImage := true
    hasAttemptedGeneration := false }

/-- The raw record of the beef-noodle scenario of the specification. -/
def beefNoodleRecord : RawDishRecord :=
  { originalName := some "牛肉面"
    englishTranslation := some "Beef Noodle Soup"
    ingredientsOrDescription := some "beef broth, noodles, scallions"
    price := some "$12"
    category := none }

/-- A raw record missing the required `englishTranslation` field. -/
def badRecord : RawDishRecord :=
  { originalName := some "Dish X"
    englishTranslation := none
    ingredientsOrDescription := some "some description"
    price := none
    category := none }

/-- Invariant: every stored `generatedImageUrl` is a non-empty string. -/
def urlsOkL (l : List Dish) : Prop :=
  ∀ d ∈ l, ∀ s, d.generatedImageUrl = some s → s ≠ ""

/-- C10: if parse succeeds with an empty `dishes` array, `processImage`
installs an empty collection in place of any previous dishes, sets no error,
and clears the analyzing flag; the empty result is not treated as a failure. -/
theorem C10_empty_result (st : AppState) (ts : Nat) :
    processImage st (Except.ok { dishes := some [] }) ts =
      { dishes := [], error := none, isAnalyzing := false } := rfl

/-- C1: evaluation at the failing input. With a single `NotRequested` dish in
the store, two `generateSingleDish` calls for its id before the first
generation resolves each issue an outbound `generateDishPhoto` call (two in
total), even though the second store update observes the loading flag and
leaves the state unchanged. The claim says the second call issues no outbound
call. -/
theorem C1_second_call_issues_duplicate :
    (generateSingleDish [dishNR] [dishNR] "n").2.length = 1 ∧
    (generateSingleDish (generateSingleDish [dishNR] [dishNR] "n").1 [dishNR] "n").2.length = 1 ∧
    (generateSingleDish (generateSingleDish [dishNR] [dishNR] "n").1 [dishNR] "n").1 =
      (generateSingleDish [dishNR] [dishNR] "n").1 := by
  decide

/-- C2, counterexample: `handleRetryGenerate` on a dish in the `NotRequested`
state (not `Failed`) is not a no-op: it issues one outbound generate call and
changes the dish's state (the dish becomes loading). -/
theorem C2_retry_counterexample :
    generationState dishNR = GenState.NotRequested ∧
    (handleRetryGenerate [dishNR] [dishNR] "n").2.length = 1 ∧
    (handleRetryGenerate [dishNR] [dishNR] "n").1 ≠ [dishNR] := by
  decide

/-- C6, counterexample: a fulfilled payload whose single record is missing
`englishTranslation` raises no error and replaces the store with a one-dish
collection (the missing field flows through as absent), contradicting the
claim that an `AnalysisError` is raised and the store is left unchanged. -/
theorem C6_malformed_counterexample :
    badRecord.englishTranslation = none ∧
    (processImage initialState (Except.ok { dishes := some [badRecord] }) 3).error = none ∧
    (processImage initialState (Except.ok { dishes := some [badRecord] }) 3).dishes ≠
      initialState.dishes := by
  decide

lemma map_id_on {l : List Dish} {f : Dish → Dish} (h : ∀ x ∈ l, f x = x) :
    l.map f = l := by
  induction l with
  | nil => rfl
  | cons a t ih =>
    rw [List.map_cons, h a (List.mem_cons_self a t),
      ih (fun x hx => h x (List.mem_cons_of_mem a hx))]

lemma find?_id_map (l : List Dish) (pid : String) (f : Dish → Dish)
    (hid : ∀ x, (f x).id = x.id) :
    (l.map f).find? (fun y => y.id == pid) =
      Option.map f (l.find? (fun y => y.id == pid)) := by
  induction l with
  | nil => rfl
  | cons a t ih =>
    by_cases h : (a.id == pid) = true
    · have e1 : List.find? (fun y => y.id == pid) (f a :: List.map f t) = some (f a) :=
        List.find?_cons_of_pos _ (by show ((f a).id == pid) = true; rw [hid a]; exact h)
      have e2 : List.find? (fun y => y.id == pid) (a :: t) = some a :=
        List.find?_cons_of_pos _ h
      rw [List.map_cons, e1, e2]
      rfl
    · have e1 : List.find? (fun y => y.id == pid) (f a :: List.map f t) =
          List.find? (fun y => y.id == pid) (List.map f t) :=
        List.find?_cons_of_neg _ (by show ¬((f a).id == pid) = true; rw [hid a]; exact h)
      have e2 : List.find? (fun y => y.id == pid) (a :: t) =
          List.find? (fun y => y.id == pid) t :=
        List.find?_cons_of_neg _ h
      rw [List.map_cons, e1, e2, ih]

lemma generateSingleDish_fst (store snapshot : List Dish) (dishId : String) :
    (generateSingleDish store snapshot dishId).1 = gssUpdater dishId store := by
  unfold generateSingleDish
  cases snapshot.find? (fun d => d.id == dishId) <;> rfl

lemma handleRetryGenerate_fst (store snapshot : List Dish) (dishId : String) :
    (handleRetryGenerate store snapshot dishId).1 =
      gssUpdater dishId (store.map (fun d =>
        if d.id == dishId then { d with hasAttemptedGeneration := false } else d)) := by
  unfold handleRetryGenerate
  rw [generateSingleDish_fst]

lemma generationState_failed_elim {d : Dish}
    (h : generationState d = GenState.Failed) :
    truthy d.generatedImageUrl = false ∧ d.isLoadingImage = false ∧
      d.hasAttemptedGeneration = true := by
  cases h1 : truthy d.generatedImageUrl <;> cases h2 : d.isLoadingImage <;>
    cases h3 : d.hasAttemptedGeneration <;>
    simp [generationState, h1, h2, h3] at h ⊢

lemma generationState_pending_elim {d : Dish}
    (h : generationState d = GenState.Pending) :
    truthy d.generatedImageUrl = false ∧ d.isLoadingImage = true := by
  cases h1 : truthy d.generatedImageUrl <;> cases h2 : d.isLoadingImage <;>
    cases h3 : d.hasAttemptedGeneration <;>
    simp [generationState, h1, h2, h3] at h ⊢

lemma runEffect_watching_iff (d : Dish) :
    runEffect d = ObsState.watching ↔ generationState d = GenState.NotRequested := by
  cases h1 : truthy d.generatedImageUrl <;> cases h2 : d.isLoadingImage <;>
    cases h3 : d.hasAttemptedGeneration <;>
    simp [runEffect, generationState, h1, h2, h3]

lemma cardFires_disconnected (evs : List CardEvent)
    (hev : ∀ d, CardEvent.update d ∈ evs → generationState d ≠ GenState.NotRequested) :
    cardFires ObsState.disconnected evs = 0 := by
  induction evs with
  | nil => rfl
  | cons e rest ih =>
    cases e with
    | update d =>
      have hd : generationState d ≠ GenState.NotRequested :=
        hev d (List.mem_cons_self _ _)
      have hre : runEffect d = ObsState.disconnected := by
        cases hr : runEffect d
        · exact absurd ((runEffect_watching_iff d).mp hr) hd
        · rfl
      rw [cardFires, hre]
      exact ih (fun d2 h2 => hev d2 (List.mem_cons_of_mem _ h2))
    | intersect b =>
      rw [cardFires]
      simp only [observerFire]
      rw [ih (fun d2 h2 => hev d2 (List.mem_cons_of_mem _ h2))]
      simp

lemma cardFires_le_one (evs : List CardEvent)
    (hev : ∀ d, CardEvent.update d ∈ evs → generationState d ≠ GenState.NotRequested)
    (s : ObsState) : cardFires s evs ≤ 1 := by
  induction evs generalizing s with
  | nil => simp [cardFires]
  | cons e rest ih =>
    cases e with
    | update d =>
      rw [cardFires]
      exact ih (fun d2 h2 => hev d2 (List.mem_cons_of_mem _ h2)) _
    | intersect b =>
      have hrest : ∀ d, CardEvent.update d ∈ rest →
          generationState d ≠ GenState.NotRequested :=
        fun d2 h2 => hev d2 (List.mem_cons_of_mem _ h2)
      cases s with
      | watching =>
        cases b with
        | true =>
          rw [cardFires]
          simp only [observerFire, if_pos rfl]
          rw [cardFires_disconnected rest hrest]
          simp
        | false =>
          rw [cardFires]
          simp only [observerFire]
          simpa using ih hrest ObsState.watching
      | disconnected =>
        rw [cardFires]
        simp only [observerFire]
        simpa using ih hrest ObsState.disconnected

lemma data_url_ne_empty (b : String) : ("data:image/png;base64," ++ b) ≠ "" := by
  intro h
  have hl := congrArg String.length h
  rw [String.length_append] at hl
  have h22 : ("data:image/png;base64,").length = 22 := by decide
  rw [h22] at hl
  simp at hl

lemma serverImageResponse_ne_empty {u b64 : Option String} {s : String}
    (h : serverImageResponse u b64 = some s) : s ≠ "" := by
  unfold serverImageResponse at h
  by_cases ht : truthy u = true
  · rw [if_pos ht] at h
    cases u with
    | none => simp [truthy] at ht
    | some t =>
      cases h
      simp only [truthy, Bool.not_eq_true'] at ht
      intro he
      rw [he] at ht
      simp at ht
  · rw [if_neg ht] at h
    cases b64 with
    | none => cases h
    | some b =>
      cases h
      exact data_url_ne_empty b

lemma urlsOkL_map_pres {f : Dish → Dish}
    (hf : ∀ x, (f x).generatedImageUrl = x.generatedImageUrl)
    {l : List Dish} (h : urlsOkL l) : urlsOkL (l.map f) := by
  intro d hd s hs
  rcases List.mem_map.mp hd with ⟨x, hx, rfl⟩
  rw [hf x] at hs
  exact h x hx s hs

lemma urlsOkL_gssUpdater (pid : String) {l : List Dish} (h : urlsOkL l) :
    urlsOkL (gssUpdater pid l) := by
  unfold gssUpdater
  cases hf : l.find? (fun d => d.id == pid) with
  | none => exact h
  | some dish =>
    cases hg : (dish.isLoadingImage || truthy dish.generatedImageUrl) with
    | true => simp only [hg, if_true]; exact h
    | false =>
      simp only [hg, Bool.false_eq_true, if_false]
      exact urlsOkL_map_pres
        (fun x => by by_cases hx : (x.id == pid) = true <;> simp [hx]) h

lemma urlsOkL_completeSuccess (pid url : String) (hurl : url ≠ "")
    {l : List Dish} (h : urlsOkL l) : urlsOkL (completeSuccess l pid url) := by
  intro d hd s hs
  rcases List.mem_map.mp hd with ⟨x, hx, rfl⟩
  by_cases hc : (x.id == pid) = true
  · rw [if_pos hc] at hs
    have h2 : some url = some s := hs
    cases h2
    exact hurl
  · rw [if_neg hc] at hs
    exact h x hx s hs

lemma urlsOkL_completeFailure (pid : String) {l : List Dish} (h : urlsOkL l) :
    urlsOkL (completeFailure l pid) :=
  urlsOkL_map_pres
    (fun x => by by_cases hx : (x.id == pid) = true <;> simp [hx]) h

lemma urlsOkL_processImage (st : AppState) (res : Except Unit MenuPayload)
    (ts : Nat) (h : urlsOkL st.dishes) : urlsOkL (processImage st res ts).dishes := by
  cases res with
  | error e => exact h
  | ok payload =>
    obtain ⟨ds⟩ := payload
    cases ds with
    | none => exact h
    | some rs =>
      intro d hd s hs
      have hd2 : d ∈ rs.enum.map (fun p => mkDish p.1 p.2 ts) := hd
      rcases List.mem_map.mp hd2 with ⟨p, hp, rfl⟩
      simp [mkDish] at hs

lemma reachable_urlsOk {st : AppState} (h : Reachable st) : urlsOkL st.dishes := by
  induction h with
  | init => intro d hd s hs; simp [initialState] at hd
  | scan st res ts hr ih => exact urlsOkL_processImage st res ts ih
  | visible st pid hr ih =>
    show urlsOkL (generateSingleDish st.dishes st.dishes pid).1
    rw [generateSingleDish_fst]
    exact urlsOkL_gssUpdater pid ih
  | retry st pid hr ih =>
    show urlsOkL (handleRetryGenerate st.dishes st.dishes pid).1
    rw [handleRetryGenerate_fst]
    exact urlsOkL_gssUpdater pid
      (urlsOkL_map_pres
        (fun x => by by_cases hx : (x.id == pid) = true <;> simp [hx]) ih)
  | success st pid url u b64 hs hr ih =>
    show urlsOkL (completeSuccess st.dishes pid url)
    exact urlsOkL_completeSuccess pid url (serverImageResponse_ne_empty hs) ih
  | failure st pid hr ih =>
    show urlsOkL (completeFailure st.dishes pid)
    exact urlsOkL_completeFailure pid ih

lemma gssUpdater_found_go (pid : String) (l : List Dish) (dish : Dish)
    (hfind : l.find? (fun x => x.id == pid) = some dish)
    (hg : (dish.isLoadingImage || truthy dish.generatedImageUrl) = false) :
    gssUpdater pid l =
      l.map (fun x =>
        if x.id == pid then { x with isLoadingImage := true } else x) := by
  unfold gssUpdater
  rw [hfind]
  show (if dish.isLoadingImage || truthy dish.generatedImageUrl then l
    else l.map (fun d =>
      if d.id == pid then { d with isLoadingImage := true } else d)) = _
  rw [if_neg (by simp [hg])]

lemma retry_on_failed (store : List Dish) (d : Dish) (pid : String)
    (hfind : store.find? (fun x => x.id == pid) = some d)
    (hf : generationState d = GenState.Failed) :
    (handleRetryGenerate store store pid).1 =
      store.map (fun x =>
        if x.id == pid then
          { x with hasAttemptedGeneration := false, isLoadingImage := true }
        else x) ∧
    (handleRetryGenerate store store pid).2 =
      [{ dishId := pid
         dishName := d.englishTranslation
         description := d.description }] := by
  obtain ⟨hurl, hload, hatt⟩ := generationState_failed_elim hf
  have hdp0 := List.find?_some hfind
  have hdp : (d.id == pid) = true := hdp0
  have hid : ∀ x : Dish,
      ((if x.id == pid then { x with hasAttemptedGeneration := false } else x) : Dish).id
        = x.id := by
    intro x; by_cases hx : (x.id == pid) = true <;> simp [hx]
  have hfind1 : (store.map (fun x =>
      if x.id == pid then { x with hasAttemptedGeneration := false } else x)).find?
        (fun x => x.id == pid) = some { d with hasAttemptedGeneration := false } := by
    rw [find?_id_map store pid _ hid, hfind]
    show some (if d.id == pid then { d with hasAttemptedGeneration := false } else d) =
      some { d with hasAttemptedGeneration := false }
    rw [if_pos hdp]
  constructor
  · rw [handleRetryGenerate_fst]
    rw [gssUpdater_found_go pid _ { d with hasAttemptedGeneration := false } hfind1
      (by simp [hload, hurl])]
    rw [List.map_map]
    have hfun : ((fun x : Dish =>
        if x.id == pid then { x with isLoadingImage := true } else x) ∘
      (fun x : Dish =>
        if x.id == pid then { x with hasAttemptedGeneration := false } else x)) =
        (fun x : Dish =>
          if x.id == pid then
            { x with hasAttemptedGeneration := false, isLoadingImage := true }
          else x) := by
      funext x
      by_cases hx : (x.id == pid) = true <;> simp [Function.comp, hx]
    rw [hfun]
  · show (generateSingleDish _ store pid).2 = _
    unfold generateSingleDish
    rw [hfind]

lemma demoSuccess_reachable : Reachable demoSuccess := by
  have h1 : Reachable demoScan :=
    Reachable.scan initialState (Except.ok { dishes := some [demoRecord] }) 0
      Reachable.init
  have h2 : Reachable demoVisible := Reachable.visible demoScan "dish-0-0" h1
  exact Reachable.success demoVisible "dish-0-0" "R" (some "R") none (by decide) h2

/-- C3: in every app state reachable through the pipeline operations
(collection install via `processImage`, visibility, retry, generation success
and failure), a dish's `generatedImageUrl` is present exactly when its derived
generation state is `Succeeded`; in the other three states it is absent. -/
theorem C3_imageRef_iff_succeeded {st : AppState} (h : Reachable st) :
    ∀ d ∈ st.dishes,
      (d.generatedImageUrl ≠ none ↔ generationState d = GenState.Succeeded) := by
  intro d hd
  have hok := reachable_urlsOk h d hd
  cases hu : d.generatedImageUrl with
  | none =>
    cases h2 : d.isLoadingImage <;> cases h3 : d.hasAttemptedGeneration <;>
      simp [generationState, truthy, hu, h2, h3]
  | some s =>
    have hs : s ≠ "" := hok s hu
    simp [generationState, truthy, hu, hs]

/-- Witness for C3 at a concrete reachable state: after a scan, a visibility
event and a successful generation, the succeeded demo dish has a present
image reference. -/
theorem C3_imageRef_witness :
    demoDish.generatedImageUrl ≠ none ↔
      generationState demoDish = GenState.Succeeded :=
  C3_imageRef_iff_succeeded demoSuccess_reachable demoDish (by decide)

/-- C4: every dish installed by a successful parse (`processImage` mapping the
payload records) starts in `NotRequested`: no generated image, not loading,
not attempted. -/
theorem C4_replaceAll_initial (st : AppState) (rs : List RawDishRecord) (ts : Nat) :
    ∀ d ∈ (processImage st (Except.ok { dishes := some rs }) ts).dishes,
      generationState d = GenState.NotRequested ∧ d.generatedImageUrl = none ∧
      d.isLoadingImage = false ∧ d.hasAttemptedGeneration = false := by
  intro d hd
  have hd2 : d ∈ rs.enum.map (fun p => mkDish p.1 p.2 ts) := hd
  rcases List.mem_map.mp hd2 with ⟨p, hp, rfl⟩
  exact ⟨by simp [generationState, mkDish, truthy], rfl, rfl, rfl⟩

/-- Witness for C4: the dish installed for the demo record at time 5. -/
theorem C4_replaceAll_witness :
    generationState (mkDish 0 demoRecord 5) = GenState.NotRequested ∧
    (mkDish 0 demoRecord 5).generatedImageUrl = none ∧
    (mkDish 0 demoRecord 5).isLoadingImage = false ∧
    (mkDish 0 demoRecord 5).hasAttemptedGeneration = false :=
  C4_replaceAll_initial initialState [demoRecord] 5 (mkDish 0 demoRecord 5)
    (by decide)

/-- C5: a generation completion (success or failure) arriving for a dish id
not present in the current collection mutates nothing: both continuations
return the store unchanged, and neither throws. -/
theorem C5_stale_completion_noop (store : List Dish) (pid : String) (url : String)
    (h : ∀ d ∈ store, d.id ≠ pid) :
    completeSuccess store pid url = store ∧ completeFailure store pid = store := by
  constructor
  · exact map_id_on (fun x hx => by rw [if_neg (by simp [h x hx])])
  · exact map_id_on (fun x hx => by rw [if_neg (by simp [h x hx])])

/-- Witness for C5: a completion for the absent id `"zzz"` leaves a singleton
store untouched. -/
theorem C5_stale_completion_witness :
    completeSuccess [demoDish] "zzz" "u" = [demoDish] ∧
    completeFailure [demoDish] "zzz" = [demoDish] :=
  C5_stale_completion_noop [demoDish] "zzz" "u" (by decide)

/-- C7: a generation failure for one dish id is dish-scoped. The failure
continuation preserves the length of the collection and leaves every dish with
a different id exactly as it was (all fields, including other in-flight
loading dishes), while the dish with the failing id, if it was `Pending`,
moves to `Failed`. -/
theorem C7_failure_frame (store : List Dish) (pid : String) :
    (completeFailure store pid).length = store.length ∧
    ∀ i : Nat, ∀ h : i < store.length,
      ∃ h2 : i < (completeFailure store pid).length,
        ((store.get ⟨i, h⟩).id ≠ pid →
          (completeFailure store pid).get ⟨i, h2⟩ = store.get ⟨i, h⟩) ∧
        ((store.get ⟨i, h⟩).id = pid →
          generationState (store.get ⟨i, h⟩) = GenState.Pending →
          generationState ((completeFailure store pid).get ⟨i, h2⟩) =
            GenState.Failed) := by
  have hlen : (completeFailure store pid).length = store.length := by
    simp [completeFailure]
  refine ⟨hlen, ?_⟩
  intro i h
  have h2 : i < (completeFailure store pid).length := by rw [hlen]; exact h
  have hget : (completeFailure store pid).get ⟨i, h2⟩ =
      (if (store.get ⟨i, h⟩).id == pid then
        { store.get ⟨i, h⟩ with isLoadingImage := false
                                hasAttemptedGeneration := true }
      else store.get ⟨i, h⟩) := by
    simp [completeFailure, List.get_eq_getElem, List.getElem_map]
  refine ⟨h2, ?_, ?_⟩
  · intro hne
    rw [hget, if_neg (by simpa using hne)]
  · intro heq hp
    obtain ⟨hurl, hload⟩ := generationState_pending_elim hp
    rw [hget, if_pos (by simpa using heq)]
    simp only [List.get_eq_getElem] at hurl
    simp [generationState, hurl]

/-- Witness for C7: in a two-dish store where the dish with id `"p"` is
pending and fails, the sibling at index 1 is untouched. -/
theorem C7_failure_frame_witness :
    ∃ h2 : 1 < (completeFailure [dishPending, dishNR] "p").length,
      (([dishPending, dishNR].get ⟨1, by decide⟩).id ≠ "p" →
        (completeFailure [dishPending, dishNR] "p").get ⟨1, h2⟩ =
          [dishPending, dishNR].get ⟨1, by decide⟩) ∧
      (([dishPending, dishNR].get ⟨1, by decide⟩).id = "p" →
        generationState ([dishPending, dishNR].get ⟨1, by decide⟩) =
          GenState.Pending →
        generationState ((completeFailure [dishPending, dishNR] "p").get ⟨1, h2⟩) =
          GenState.Failed) :=
  (C7_failure_frame [dishPending, dishNR] "p").2 1 (by decide)

/-- C8: the installed collection preserves the order of the payload records
with no deduplication or sorting (same length, and the dish at every index is
the record at that index mapped through: `ingredientsOrDescription` becomes
`description`, `price` and `category` pass through, names pass through); and
the beef-noodle scenario installs exactly one `NotRequested` dish with price
`$12`. -/
theorem C8_order_and_fields :
    (∀ (st : AppState) (rs : List RawDishRecord) (ts : Nat),
      (processImage st (Except.ok { dishes := some rs }) ts).dishes.length =
        rs.length) ∧
    (∀ (st : AppState) (rs : List RawDishRecord) (ts : Nat) (i : Nat),
      ∀ h : i < rs.length,
      ∃ h2 : i < (processImage st (Except.ok { dishes := some rs }) ts).dishes.length,
        (processImage st (Except.ok { dishes := some rs }) ts).dishes.get ⟨i, h2⟩ =
          mkDish i (rs.get ⟨i, h⟩) ts ∧
        (mkDish i (rs.get ⟨i, h⟩) ts).description =
          (rs.get ⟨i, h⟩).ingredientsOrDescription ∧
        (mkDish i (rs.get ⟨i, h⟩) ts).price = (rs.get ⟨i, h⟩).price ∧
        (mkDish i (rs.get ⟨i, h⟩) ts).category = (rs.get ⟨i, h⟩).category ∧
        (mkDish i (rs.get ⟨i, h⟩) ts).originalName = (rs.get ⟨i, h⟩).originalName ∧
        (mkDish i (rs.get ⟨i, h⟩) ts).englishTranslation =
          (rs.get ⟨i, h⟩).englishTranslation) ∧
    (processImage initialState
        (Except.ok { dishes := some [beefNoodleRecord] }) 9 =
      { dishes := [mkDish 0 beefNoodleRecord 9], error := none
        isAnalyzing := false } ∧
      generationState (mkDish 0 beefNoodleRecord 9) = GenState.NotRequested ∧
      (mkDish 0 beefNoodleRecord 9).price = some "$12") := by
  refine ⟨?_, ?_, rfl, rfl, rfl⟩
  · intro st rs ts
    have hds : (processImage st (Except.ok { dishes := some rs }) ts).dishes =
        rs.enum.map (fun p => mkDish p.1 p.2 ts) := rfl
    rw [hds, List.length_map, List.enum_length]
  · intro st rs ts i h
    have hds : (processImage st (Except.ok { dishes := some rs }) ts).dishes =
        rs.enum.map (fun p => mkDish p.1 p.2 ts) := rfl
    have h2 : i < (processImage st (Except.ok { dishes := some rs }) ts).dishes.length := by
      rw [hds, List.length_map, List.enum_length]
      exact h
    refine ⟨h2, ?_, rfl, rfl, rfl, rfl, rfl⟩
    simp only [List.get_eq_getElem, hds]
    simp [List.getElem_map, List.getElem_enum]

/-- Witness for C8 at the beef-noodle scenario record, index 0. -/
theorem C8_order_witness :
    ∃ h2 : 0 < (processImage initialState
        (Except.ok { dishes := some [beefNoodleRecord] }) 9).dishes.length,
      (processImage initialState
          (Except.ok { dishes := some [beefNoodleRecord] }) 9).dishes.get ⟨0, h2⟩ =
        mkDish 0 ([beefNoodleRecord].get ⟨0, by decide⟩) 9 ∧
      (mkDish 0 ([beefNoodleRecord].get ⟨0, by decide⟩) 9).description =
        ([beefNoodleRecord].get ⟨0, by decide⟩).ingredientsOrDescription ∧
      (mkDish 0 ([beefNoodleRecord].get ⟨0, by decide⟩) 9).price =
        ([beefNoodleRecord].get ⟨0, by decide⟩).price ∧
      (mkDish 0 ([beefNoodleRecord].get ⟨0, by decide⟩) 9).category =
        ([beefNoodleRecord].get ⟨0, by decide⟩).category ∧
      (mkDish 0 ([beefNoodleRecord].get ⟨0, by decide⟩) 9).originalName =
        ([beefNoodleRecord].get ⟨0, by decide⟩).originalName ∧
      (mkDish 0 ([beefNoodleRecord].get ⟨0, by decide⟩) 9).englishTranslation =
        ([beefNoodleRecord].get ⟨0, by decide⟩).englishTranslation :=
  C8_order_and_fields.2.1 initialState [beefNoodleRecord] 9 0 (by decide)

/-- C2 (amended): `handleRetryGenerate` performs no state check itself; the
`Failed`-only restriction is enforced by the UI, which renders the retry
button exactly for `Failed` dishes. Invoked on a `Failed` dish it clears the
attempted flag, marks the dish loading (so the dish is `Pending`), and issues
exactly one generate call taken from the snapshot; invoked on a dish in
another state it is not a no-op (see the counterexample). -/
theorem C2_retry_amended (store : List Dish) (d : Dish) (pid : String)
    (hfind : store.find? (fun x => x.id == pid) = some d)
    (hf : generationState d = GenState.Failed) :
    (handleRetryGenerate store store pid).1 =
      store.map (fun x =>
        if x.id == pid then
          { x with hasAttemptedGeneration := false, isLoadingImage := true }
        else x) ∧
    (handleRetryGenerate store store pid).2 =
      [{ dishId := pid
         dishName := d.englishTranslation
         description := d.description }] ∧
    generationState
        { d with hasAttemptedGeneration := false, isLoadingImage := true } =
      GenState.Pending ∧
    retryButtonShown d = true := by
  obtain ⟨hurl, hload, hatt⟩ := generationState_failed_elim hf
  obtain ⟨hstore, hcalls⟩ := retry_on_failed store d pid hfind hf
  refine ⟨hstore, hcalls, ?_, ?_⟩
  · simp [generationState, hurl]
  · simp [retryButtonShown, hurl, hload, hatt]

/-- Witness for C2 (amended) on a singleton store holding a failed dish. -/
theorem C2_retry_witness :
    (handleRetryGenerate [dishFailed] [dishFailed] "f").1 =
      [dishFailed].map (fun x =>
        if x.id == "f" then
          { x with hasAttemptedGeneration := false, isLoadingImage := true }
        else x) ∧
    (handleRetryGenerate [dishFailed] [dishFailed] "f").2 =
      [{ dishId := "f"
         dishName := dishFailed.englishTranslation
         description := dishFailed.description }] ∧
    generationState
        { dishFailed with hasAttemptedGeneration := false, isLoadingImage := true } =
      GenState.Pending ∧
    retryButtonShown dishFailed = true :=
  C2_retry_amended [dishFailed] dishFailed "f" (by decide) (by decide)

/-- C6 (amended): when the parse call rejects, or the fulfilled payload has no
usable `dishes` array (so building the dish list throws), the error is caught:
the failure message is set and the collection is unchanged. But a payload
whose records merely miss required fields such as `englishTranslation` is
installed as-is with no error: the client performs no per-record shape
validation. -/
theorem C6_parse_error_handling :
    (∀ (st : AppState) (ts : Nat),
      (processImage st (Except.error ()) ts).dishes = st.dishes ∧
      (processImage st (Except.error ()) ts).error = some analyzeFailedMsg ∧
      (processImage st (Except.ok { dishes := none }) ts).dishes = st.dishes ∧
      (processImage st (Except.ok { dishes := none }) ts).error =
        some analyzeFailedMsg) ∧
    (∀ (st : AppState) (ts : Nat) (r : RawDishRecord),
      r.englishTranslation = none →
      (processImage st (Except.ok { dishes := some [r] }) ts).dishes =
        [mkDish 0 r ts] ∧
      (processImage st (Except.ok { dishes := some [r] }) ts).error = none ∧
      (mkDish 0 r ts).englishTranslation = none) := by
  refine ⟨fun st ts => ⟨rfl, rfl, rfl, rfl⟩, fun st ts r hr => ⟨rfl, rfl, ?_⟩⟩
  show r.englishTranslation = none
  exact hr

/-- Witness for C6 (amended) at the record missing `englishTranslation`. -/
theorem C6_parse_error_witness :
    (processImage initialState (Except.ok { dishes := some [badRecord] }) 3).dishes =
      [mkDish 0 badRecord 3] ∧
    (processImage initialState (Except.ok { dishes := some [badRecord] }) 3).error =
      none ∧
    (mkDish 0 badRecord 3).englishTranslation = none :=
  C6_parse_error_handling.2 initialState 3 badRecord (by decide)

/-- C9: the visibility trigger is one-shot and state-guarded. The card effect
arms an observer exactly for `NotRequested` dishes; a watching observer fires
once on intersection and disconnects; a disconnected observer never fires; a
card whose effect re-runs only with non-`NotRequested` dishes fires at most
one notification over any event sequence; and a retried `Failed` dish is
immediately `Pending` (not `NotRequested`), so its card does not re-arm the
observer. -/
theorem C9_visibility_one_shot :
    (∀ d : Dish,
      runEffect d = ObsState.watching ↔
        generationState d = GenState.NotRequested) ∧
    observerFire ObsState.watching true = (ObsState.disconnected, true) ∧
    (∀ b : Bool,
      observerFire ObsState.disconnected b = (ObsState.disconnected, false)) ∧
    (∀ evs : List CardEvent,
      (∀ d : Dish, CardEvent.update d ∈ evs →
        generationState d ≠ GenState.NotRequested) →
      ∀ s : ObsState, cardFires s evs ≤ 1) ∧
    (∀ (store : List Dish) (d : Dish) (pid : String),
      store.find? (fun x => x.id == pid) = some d →
      generationState d = GenState.Failed →
      generationState
          { d with hasAttemptedGeneration := false, isLoadingImage := true } =
        GenState.Pending ∧
      runEffect
          { d with hasAttemptedGeneration := false, isLoadingImage := true } =
        ObsState.disconnected ∧
      (handleRetryGenerate store store pid).1 =
        store.map (fun x =>
          if x.id == pid then
            { x with hasAttemptedGeneration := false, isLoadingImage := true }
          else x)) := by
  refine ⟨runEffect_watching_iff, rfl, fun b => rfl, cardFires_le_one, ?_⟩
  intro store d pid hfind hf
  obtain ⟨hurl, hload, hatt⟩ := generationState_failed_elim hf
  obtain ⟨hstore, _⟩ := retry_on_failed store d pid hfind hf
  exact ⟨by simp [generationState, hurl], by simp [runEffect, hurl], hstore⟩

/-- Witness for C9: a watching observer sees three intersection callbacks and
fires at most once. -/
theorem C9_visibility_witness :
    cardFires ObsState.watching
      [CardEvent.intersect true, CardEvent.intersect true,
        CardEvent.intersect true] ≤ 1 :=
  C9_visibility_one_shot.2.2.2.1
    [CardEvent.intersect true, CardEvent.intersect true, CardEvent.intersect true]
    (by intro d hd; simp at hd) ObsState.watching
